import Mathlib

/-!
Verification of the Inventory Ledger + Order Lifecycle subsystem of the
nikitabotv2 storefront bot.

The ledger layer is a shallow embedding of
`app/db/repositories/product_repo.py` (stock methods) and
`app/services/product_service.py` (stock service wrappers).  A database
session holding the `product_stock` table is modelled as a partial map
from `(product_id, location_id)` keys to integer quantities; `None`
means the row is absent.  Each repository method is a pure function on
that state which returns `none` exactly where the Python method returns
`None` (in which case the service layer rolls the session back, so the
caller observes the unchanged state), and `some` with the mutated state
where the method flushes the mutation.

The order lifecycle layer (`app/services/order_service.py`, imported by
`app/handlers/admin_handlers.py` but not part of the sources at hand) is
modelled from the specification's state machine and transaction
contract; those definitions carry `Modelled from the spec:` comments.
-/

namespace NikitaBot

/-- A stock row key: `(product_id, location_id)`. -/
abbrev StockKey := ℕ × ℕ

/-- The `product_stock` table: for each key, `some q` when a row with
quantity `q` exists, `none` when no row exists. -/
abbrev StockState := StockKey → Option ℤ

/-- The table with no rows at all. -/
def emptyStock : StockState := fun _ => none

/-- The quantity visible to a reader: row quantity, or 0 when the row is
absent (`GetForUpdate` reports quantity 0 with `exists=false`). -/
def availableQty (st : StockState) (k : StockKey) : ℤ :=
  (st k).getD 0

/-- All stored quantities are non-negative (the `quantity >= 0` check
constraint of the `stock` table). -/
def StockInv (st : StockState) : Prop :=
  ∀ k q, st k = some q → 0 ≤ q

/-- Embedding of `ProductRepository.update_stock_quantity` (relative
adjustment, `Adjust` in the spec).  If the row exists, the new quantity
is `current + quantity_change`, and the method fails (returns `none`,
mutating nothing) when that would be negative.  If the row is absent,
the method fails when `quantity_change < 0` and otherwise creates the
row with quantity `quantity_change`.  On success it returns the updated
state together with the stored quantity of the returned row. -/
def update_stock_quantity (st : StockState) (product_id location_id : ℕ)
    (quantity_change : ℤ) : Option (StockState × ℤ) :=
  match st (product_id, location_id) with
  | some q =>
      let new_quantity := q + quantity_change
      if new_quantity < 0 then
        none
      else
        some (Function.update st (product_id, location_id) (some new_quantity),
          new_quantity)
  | none =>
      if quantity_change < 0 then
        none
      else
        some (Function.update st (product_id, location_id) (some quantity_change),
          quantity_change)

/-- Embedding of `ProductRepository.set_stock_quantity` (`SetAbsolute`):
fails on a negative quantity, otherwise creates or overwrites the row
unconditionally. -/
def set_stock_quantity (st : StockState) (product_id location_id : ℕ)
    (new_absolute_quantity : ℤ) : Option (StockState × ℤ) :=
  if new_absolute_quantity < 0 then
    none
  else
    some (Function.update st (product_id, location_id) (some new_absolute_quantity),
      new_absolute_quantity)

/-- Embedding of `ProductService.update_stock`: commits on repository
success, rolls back on failure, and reports `(success, message_key)` to
the caller.  Every repository failure surfaces as the single key
`admin_stock_update_failed_insufficient`. -/
def update_stock (st : StockState) (product_id location_id : ℕ)
    (quantity_change : ℤ) : (Bool × String) × StockState :=
  match update_stock_quantity st product_id location_id quantity_change with
  | some (st2, _) => ((true, "admin_stock_updated_success"), st2)
  | none => ((false, "admin_stock_update_failed_insufficient"), st)

/-- Embedding of `ProductService.reserve_stock`: adjusts by `-quantity`,
commits on success (returning `true`), rolls back on failure (returning
`false` with the state unchanged). -/
def reserve_stock (st : StockState) (product_id location_id : ℕ)
    (quantity : ℤ) : Bool × StockState :=
  match update_stock_quantity st product_id location_id (-quantity) with
  | some (st2, _) => (true, st2)
  | none => (false, st)

/-- Embedding of `ProductService.release_stock`: adjusts by `+quantity`,
commits on success, rolls back on failure. -/
def release_stock (st : StockState) (product_id location_id : ℕ)
    (quantity : ℤ) : Bool × StockState :=
  match update_stock_quantity st product_id location_id quantity with
  | some (st2, _) => (true, st2)
  | none => (false, st)

/-- A sequence of `Adjust` calls against the ledger, each committed when
it succeeds and rolled back (state kept) when it fails. -/
def runAdjustments (st : StockState) : List (StockKey × ℤ) → StockState
  | [] => st
  | (k, d) :: rest =>
      match update_stock_quantity st k.1 k.2 d with
      | some (st2, _) => runAdjustments st2 rest
      | none => runAdjustments st rest

/-! ### Order lifecycle layer

`app/services/order_service.py` is imported by the admin handlers but is
not among the sources at hand, so the order state machine and the
transition orchestration are modelled from the specification (§4.3,
§4.4): statuses, the transition table, `Next`, and `Transition` with its
terminal-status guard and single-transaction rollback contract.  The
stock mutations they drive are the embedded `update_stock_quantity`
above. -/

/-- Modelled from the spec: the order status enumeration of §4.3
(missing `app/services/order_service.py`). -/
inductive OrderStatus where
  | pending_admin_approval
  | approved
  | processing
  | ready_for_pickup
  | shipped
  | completed
  | cancelled
  | rejected
deriving DecidableEq, Repr, Fintype

/-- Modelled from the spec: the actions an admin or user may request on
an order — approve, reject, cancel, or an admin-directed status change
to a given target status (missing `app/services/order_service.py`). -/
inductive OrderAction where
  | approve
  | reject
  | cancel
  | changeStatus (target : OrderStatus)
deriving DecidableEq, Repr, Fintype

/-- Modelled from the spec: the typed error kinds of §7 that the order
lifecycle layer surfaces (missing `app/services/order_service.py`). -/
inductive TransitionError where
  | invalidTransition
  | orderAlreadyTerminal
  | recordNotFound
deriving DecidableEq, Repr, Fintype

/-- Modelled from the spec: terminal statuses admit no further
transition (§4.3: `completed`, `cancelled`, `rejected`). -/
def isTerminal : OrderStatus → Bool
  | .completed => true
  | .cancelled => true
  | .rejected => true
  | _ => false

/-- Modelled from the spec: the transition table of §4.3 as a list of
`(current, action, next, releasesStock)` rows (missing
`app/services/order_service.py`).  Cancellation releases stock from
every non-terminal status except `shipped`; rejection is only reachable
from `pending_admin_approval` and releases stock. -/
def allowedTransitions : List (OrderStatus × OrderAction × OrderStatus × Bool) :=
  [ (.pending_admin_approval, .approve, .approved, false),
    (.pending_admin_approval, .reject, .rejected, true),
    (.pending_admin_approval, .cancel, .cancelled, true),
    (.approved, .changeStatus .processing, .processing, false),
    (.approved, .changeStatus .ready_for_pickup, .ready_for_pickup, false),
    (.approved, .changeStatus .shipped, .shipped, false),
    (.approved, .changeStatus .completed, .completed, false),
    (.approved, .cancel, .cancelled, true),
    (.processing, .changeStatus .ready_for_pickup, .ready_for_pickup, false),
    (.processing, .changeStatus .shipped, .shipped, false),
    (.processing, .cancel, .cancelled, true),
    (.ready_for_pickup, .changeStatus .shipped, .shipped, false),
    (.ready_for_pickup, .changeStatus .completed, .completed, false),
    (.ready_for_pickup, .cancel, .cancelled, true),
    (.shipped, .changeStatus .completed, .completed, false),
    (.shipped, .cancel, .cancelled, false) ]

/-- Modelled from the spec: `OrderStateMachine.Next(current, action)` of
§4.3 — pure lookup of the transition table, `InvalidTransition` when the
pair has no row (missing `app/services/order_service.py`). -/
def Next (current : OrderStatus) (action : OrderAction) :
    Except TransitionError (OrderStatus × Bool) :=
  match (allowedTransitions.find? fun row => row.1 == current && row.2.1 == action) with
  | some row => .ok (row.2.2.1, row.2.2.2)
  | none => .error .invalidTransition

/-- An order line item as reserved: key plus `reserved_quantity`. -/
structure OrderItem where
  product_id : ℕ
  location_id : ℕ
  reserved_quantity : ℤ
deriving DecidableEq, Repr

/-- The slice of an order the lifecycle model needs: its status and its
line items. -/
structure Order where
  status : OrderStatus
  items : List OrderItem
deriving DecidableEq, Repr

/-- Modelled from the spec: `ReleaseAll` (§4.2) — for each item, adjust
the stock by `+reserved_quantity`; fails if any single adjustment fails
(missing `app/services/order_service.py`).  The per-item adjustment is
the embedded `update_stock_quantity`. -/
def releaseAll (st : StockState) : List OrderItem → Option StockState
  | [] => some st
  | it :: rest =>
      match update_stock_quantity st it.product_id it.location_id
          it.reserved_quantity with
      | some (st2, _) => releaseAll st2 rest
      | none => none

/-- Modelled from the spec: `OrderLifecycleService.Transition` (§4.4,
missing `app/services/order_service.py`): fails with
`OrderAlreadyTerminal` on an order already in a terminal status, applies
the state machine, releases the reserved quantities when the table row
says so, and on any error rolls the transaction back wholesale (the
returned state is the input state). -/
def Transition (st : StockState) (o : Order) (a : OrderAction) :
    Except TransitionError Order × StockState :=
  if isTerminal o.status then
    (.error .orderAlreadyTerminal, st)
  else
    match Next o.status a with
    | .error e => (.error e, st)
    | .ok (nextStatus, releasesStock) =>
        if releasesStock then
          match releaseAll st o.items with
          | some st2 => (.ok (Order.mk nextStatus o.items), st2)
          | none => (.error .recordNotFound, st)
        else
          (.ok (Order.mk nextStatus o.items), st)

/-- A line item requested at order creation time: key plus requested
quantity. -/
structure LineItem where
  product_id : ℕ
  location_id : ℕ
  quantity : ℤ
deriving DecidableEq, Repr

/-- The stock key of a requested line item. -/
def LineItem.key (it : LineItem) : StockKey :=
  (it.product_id, it.location_id)

/-- Modelled from the spec: `ReserveAll` (§4.2) — for each item in
order, adjust stock by `-quantity`; the first failure aborts (missing
`app/services/order_service.py`).  The per-item adjustment is the
embedded `update_stock_quantity`. -/
def reserveAll (st : StockState) : List LineItem → Option StockState
  | [] => some st
  | it :: rest =>
      match update_stock_quantity st it.product_id it.location_id
          (-it.quantity) with
      | some (st2, _) => reserveAll st2 rest
      | none => none

/-- Modelled from the spec: the stock effect of
`OrderLifecycleService.CreateOrder` (§4.4, missing
`app/services/order_service.py`): reserve every item inside one
transaction; if any item fails, abort the entire order — the
transaction rolls back and the returned state is the input state. -/
def createOrder (st : StockState) (items : List LineItem) : Bool × StockState :=
  match reserveAll st items with
  | some st2 => (true, st2)
  | none => (false, st)

/-! ### Basic lemmas about the ledger embedding -/

lemma stockInv_empty : StockInv emptyStock := by
  intro k q h
  simp [emptyStock] at h

lemma stockInv_update {st : StockState} {k : StockKey} {q : ℤ}
    (hinv : StockInv st) (hq : 0 ≤ q) :
    StockInv (Function.update st k (some q)) := by
  intro k' q' h
  rcases eq_or_ne k' k with rfl | hne
  · rw [Function.update_same] at h
    injection h with h
    omega
  · rw [Function.update_noteq hne] at h
    exact hinv k' q' h

lemma update_stock_quantity_existing {st : StockState} {p l : ℕ} {d q : ℤ}
    (hst : st (p, l) = some q) :
    update_stock_quantity st p l d =
      if q + d < 0 then none
      else some (Function.update st (p, l) (some (q + d)), q + d) := by
  simp [update_stock_quantity, hst]

lemma update_stock_quantity_missing {st : StockState} {p l : ℕ} {d : ℤ}
    (hst : st (p, l) = none) :
    update_stock_quantity st p l d =
      if d < 0 then none
      else some (Function.update st (p, l) (some d), d) := by
  simp [update_stock_quantity, hst]

lemma update_stock_quantity_inv {st st2 : StockState} {p l : ℕ} {d n : ℤ}
    (hinv : StockInv st)
    (h : update_stock_quantity st p l d = some (st2, n)) :
    StockInv st2 ∧ 0 ≤ n := by
  cases hst : st (p, l) with
  | some q =>
      rw [update_stock_quantity_existing hst] at h
      split at h
      · exact absurd h (by simp)
      · rename_i hge
        simp only [Option.some.injEq, Prod.mk.injEq] at h
        obtain ⟨h1, h2⟩ := h
        subst h1; subst h2
        exact ⟨stockInv_update hinv (by omega), by omega⟩
  | none =>
      rw [update_stock_quantity_missing hst] at h
      split at h
      · exact absurd h (by simp)
      · rename_i hge
        simp only [Option.some.injEq, Prod.mk.injEq] at h
        obtain ⟨h1, h2⟩ := h
        subst h1; subst h2
        exact ⟨stockInv_update hinv (by omega), by omega⟩

lemma runAdjustments_inv {st : StockState} (ds : List (StockKey × ℤ))
    (hinv : StockInv st) : StockInv (runAdjustments st ds) := by
  induction ds generalizing st with
  | nil => exact hinv
  | cons kd rest ih =>
      obtain ⟨k, d⟩ := kd
      rw [runAdjustments]
      cases h : update_stock_quantity st k.1 k.2 d with
      | some r =>
          exact ih ((update_stock_quantity_inv hinv h).1)
      | none => exact ih hinv

/-! ### C1 — no-negative stock invariant -/

/-- C1: for every (product_id, location_id) key and every sequence of
`Adjust` calls (`update_stock_quantity`), the stored quantity never goes
below 0; a single call on an existing record with quantity `q` and delta
`d` such that `q + d < 0` fails and changes nothing, and a successful
call on an existing record stores and returns exactly `q + d`. -/
theorem no_negative_stock_invariant :
    (∀ (st : StockState) (p l : ℕ) (d q : ℤ), st (p, l) = some q →
      q + d < 0 → update_stock_quantity st p l d = none) ∧
    (∀ (st : StockState) (p l : ℕ) (d q : ℤ), st (p, l) = some q →
      0 ≤ q + d → update_stock_quantity st p l d =
        some (Function.update st (p, l) (some (q + d)), q + d)) ∧
    (∀ (st : StockState) (ds : List (StockKey × ℤ)), StockInv st →
      StockInv (runAdjustments st ds)) := by
  refine ⟨?_, ?_, ?_⟩
  · intro st p l d q hst hneg
    rw [update_stock_quantity_existing hst, if_pos hneg]
  · intro st p l d q hst hge
    rw [update_stock_quantity_existing hst, if_neg (by omega)]
  · intro st ds hinv
    exact runAdjustments_inv ds hinv

/-- C1 witness: with a single record `(1, 1) ↦ 3`, the call with delta
`-5` fails, the call with delta `-2` succeeds storing `1`, and the
invariant survives the two-call sequence. -/
theorem no_negative_stock_invariant_witness :
    update_stock_quantity (Function.update emptyStock (1, 1) (some 3)) 1 1 (-5)
      = none ∧
    update_stock_quantity (Function.update emptyStock (1, 1) (some 3)) 1 1 (-2)
      = some (Function.update (Function.update emptyStock (1, 1) (some 3)) (1, 1)
          (some (3 + -2)), 3 + -2) ∧
    StockInv (runAdjustments (Function.update emptyStock (1, 1) (some 3))
      [((1, 1), -5), ((1, 1), -2)]) := by
  refine ⟨?_, ?_, ?_⟩
  · exact no_negative_stock_invariant.1
      (Function.update emptyStock (1, 1) (some 3)) 1 1 (-5) 3
      (Function.update_same _ _ _) (by decide)
  · exact no_negative_stock_invariant.2.1
      (Function.update emptyStock (1, 1) (some 3)) 1 1 (-2) 3
      (Function.update_same _ _ _) (by decide)
  · exact no_negative_stock_invariant.2.2
      (Function.update emptyStock (1, 1) (some 3)) [((1, 1), -5), ((1, 1), -2)]
      (stockInv_update stockInv_empty (by decide))

/-! ### C3 — transition legality -/

/-- C3: `Next` on the terminal status `completed` with `approve` returns
`InvalidTransition`; `Next("pending_admin_approval", "reject")` returns
next status `rejected` with `releasesStock = true` and no error; and for
every `(current, action)` pair without a row in the transition table,
`Next` returns `InvalidTransition`. -/
theorem next_transition_legality :
    Next .completed .approve = .error .invalidTransition ∧
    Next .pending_admin_approval .reject = .ok (.rejected, true) ∧
    ∀ (c : OrderStatus) (a : OrderAction),
      (∀ (n : OrderStatus) (r : Bool), (c, a, n, r) ∉ allowedTransitions) →
      Next c a = .error .invalidTransition := by
  refine ⟨rfl, rfl, ?_⟩
  intro c a h
  rw [Next]
  cases hfind : allowedTransitions.find? fun row => row.1 == c && row.2.1 == a with
  | none => rfl
  | some row =>
      have hmem := List.mem_of_find?_eq_some hfind
      have hpred := List.find?_some hfind
      simp only [Bool.and_eq_true, beq_iff_eq] at hpred
      obtain ⟨h1, h2⟩ := hpred
      obtain ⟨c', a', n', r'⟩ := row
      simp only at h1 h2
      subst h1; subst h2
      exact absurd hmem (h n' r')

/-- C3 witness: the pair `(cancelled, cancel)` has no row in the table,
so `Next` rejects it with `InvalidTransition`. -/
theorem next_transition_legality_witness :
    Next .cancelled .cancel = .error .invalidTransition :=
  next_transition_legality.2.2 .cancelled .cancel (by decide)

/-! ### C5 — adjust on a missing record

The claim says a delta of 0 on a missing record fails with
`RecordNotFound` and creates no record.  The repository only rejects
`quantity_change < 0`; a zero delta falls through to the creation branch
(whose own comment says it is for a positive change) and creates the row
with quantity 0. -/

/-- C5: evaluation of `update_stock_quantity` on a missing record.  A
negative delta fails and a positive delta creates the row with that
quantity, as claimed — but a zero delta, instead of failing, creates the
row with quantity 0 and reports success. -/
theorem adjust_missing_record_zero_delta :
    update_stock_quantity emptyStock 1 1 (-1) = none ∧
    update_stock_quantity emptyStock 1 1 5 =
      some (Function.update emptyStock (1, 1) (some 5), 5) ∧
    update_stock_quantity emptyStock 1 1 0 =
      some (Function.update emptyStock (1, 1) (some 0), 0) := by
  exact ⟨rfl, rfl, rfl⟩

/-! ### C8 — absolute set semantics -/

/-- C8: `set_stock_quantity` fails and changes nothing on a negative
quantity; on a non-negative quantity it creates or overwrites the row
unconditionally, so afterwards the stored quantity equals the given
quantity regardless of the prior state. -/
theorem set_stock_semantics :
    (∀ (st : StockState) (p l : ℕ) (q : ℤ), q < 0 →
      set_stock_quantity st p l q = none) ∧
    (∀ (st : StockState) (p l : ℕ) (q : ℤ), 0 ≤ q →
      set_stock_quantity st p l q =
        some (Function.update st (p, l) (some q), q) ∧
      Function.update st (p, l) (some q) (p, l) = some q) := by
  constructor
  · intro st p l q hq
    rw [set_stock_quantity, if_pos hq]
  · intro st p l q hq
    exact ⟨by rw [set_stock_quantity, if_neg (by omega)],
      Function.update_same _ _ _⟩

/-- C8 witness: setting the quantity of `(1, 1)` to 7 over an existing
record with quantity 3 overwrites it, and setting it to `-1` fails. -/
theorem set_stock_semantics_witness :
    set_stock_quantity (Function.update emptyStock (1, 1) (some 3)) 1 1 (-1)
      = none ∧
    (set_stock_quantity (Function.update emptyStock (1, 1) (some 3)) 1 1 7 =
      some (Function.update (Function.update emptyStock (1, 1) (some 3)) (1, 1)
        (some 7), 7) ∧
     Function.update (Function.update emptyStock (1, 1) (some 3)) (1, 1)
        (some 7) (1, 1) = some 7) :=
  ⟨set_stock_semantics.1 (Function.update emptyStock (1, 1) (some 3)) 1 1 (-1)
      (by decide),
   set_stock_semantics.2 (Function.update emptyStock (1, 1) (some 3)) 1 1 7
      (by decide)⟩

/-! ### C9 — reserve/release round trip -/

/-- C9: on a key with existing quantity `Q` and any `q` with
`0 ≤ q ≤ Q`, `Adjust(-q)` succeeds leaving `Q - q`, and an immediately
following `Adjust(+q)` succeeds restoring the stored quantity to exactly
`Q`. -/
theorem reserve_release_round_trip :
    ∀ (st : StockState) (p l : ℕ) (Q q : ℤ), st (p, l) = some Q →
      0 ≤ q → q ≤ Q →
      ∃ st1 st2,
        update_stock_quantity st p l (-q) = some (st1, Q - q) ∧
        update_stock_quantity st1 p l q = some (st2, Q) ∧
        st2 (p, l) = some Q := by
  intro st p l Q q hst hq hqQ
  refine ⟨Function.update st (p, l) (some (Q - q)),
    Function.update (Function.update st (p, l) (some (Q - q))) (p, l) (some Q),
    ?_, ?_, Function.update_same _ _ _⟩
  · have h1 : Q + -q = Q - q := by omega
    rw [update_stock_quantity_existing hst, if_neg (by omega), h1]
  · have h2 : Q - q + q = Q := by omega
    rw [update_stock_quantity_existing (Function.update_same _ _ _),
      if_neg (by omega), h2]

/-- C9 witness: from quantity 8 at `(1, 1)`, adjusting by `-5` and then
`+5` restores exactly 8. -/
theorem reserve_release_round_trip_witness :
    ∃ st1 st2,
      update_stock_quantity (Function.update emptyStock (1, 1) (some 8)) 1 1 (-5)
        = some (st1, 8 - 5) ∧
      update_stock_quantity st1 1 1 5 = some (st2, 8) ∧
      st2 (1, 1) = some 8 :=
  reserve_release_round_trip (Function.update emptyStock (1, 1) (some 8)) 1 1 8 5
    (Function.update_same _ _ _) (by decide) (by decide)

/-! ### C10 — unvalidated reservation sign -/

/-- C10: `ProductService.reserve_stock` has no precondition on the sign
of the quantity: called with `q < 0` it reports success and increases
the stock by `-q = |q|` — adding `|q|` to an existing record, or
creating the record with quantity `|q|` when absent. -/
theorem reserve_stock_negative_quantity :
    (∀ (st : StockState) (p l : ℕ) (q Q : ℤ), q < 0 → st (p, l) = some Q →
      0 ≤ Q →
      reserve_stock st p l q =
        (true, Function.update st (p, l) (some (Q + -q)))) ∧
    (∀ (st : StockState) (p l : ℕ) (q : ℤ), q < 0 → st (p, l) = none →
      reserve_stock st p l q =
        (true, Function.update st (p, l) (some (-q)))) := by
  constructor
  · intro st p l q Q hq hst hQ
    rw [reserve_stock, update_stock_quantity_existing hst, if_neg (by omega)]
  · intro st p l q hq hst
    rw [reserve_stock, update_stock_quantity_missing hst, if_neg (by omega)]

/-- C10 witness: reserving `-4` units at `(1, 1)` over an existing
quantity 3 succeeds and raises the stock to 7; reserving `-4` at the
absent key `(2, 2)` succeeds and creates the record with quantity 4. -/
theorem reserve_stock_negative_quantity_witness :
    reserve_stock (Function.update emptyStock (1, 1) (some 3)) 1 1 (-4) =
      (true, Function.update (Function.update emptyStock (1, 1) (some 3)) (1, 1)
        (some (3 + -(-4)))) ∧
    reserve_stock emptyStock 2 2 (-4) =
      (true, Function.update emptyStock (2, 2) (some (-(-4)))) :=
  ⟨reserve_stock_negative_quantity.1 (Function.update emptyStock (1, 1) (some 3))
      1 1 (-4) 3 (by decide) (Function.update_same _ _ _) (by decide),
   reserve_stock_negative_quantity.2 emptyStock 2 2 (-4) (by decide) rfl⟩

/-! ### C6 — release on a missing record

The claim says a release whose stock record is absent fails with
`RecordNotFound` rather than succeeding or recreating the record.  In
the code, `release_stock` adjusts by `+quantity`, and
`update_stock_quantity` creates the missing row whenever the delta is
not negative — so the release succeeds and recreates the record. -/

/-- C6 counterexample: with no record at `(1, 1)`, releasing 5 units
reports success and recreates the record with quantity 5 — it does not
fail. -/
theorem release_missing_record_counterexample :
    emptyStock (1, 1) = none ∧
    (release_stock emptyStock 1 1 5).1 = true ∧
    (release_stock emptyStock 1 1 5).2 (1, 1) = some 5 := by
  exact ⟨rfl, rfl, rfl⟩

/-- C6 amended: releasing a non-negative quantity on a missing stock
record does not fail and does not no-op: it reports success and
recreates the record with quantity equal to the released amount. -/
theorem release_missing_record_recreates :
    ∀ (st : StockState) (p l : ℕ) (q : ℤ), st (p, l) = none → 0 ≤ q →
      release_stock st p l q = (true, Function.update st (p, l) (some q)) := by
  intro st p l q hst hq
  rw [release_stock, update_stock_quantity_missing hst, if_neg (by omega)]

/-- C6 witness: releasing 5 units at the absent key `(1, 1)` succeeds
and creates the record with quantity 5. -/
theorem release_missing_record_recreates_witness :
    release_stock emptyStock 1 1 5 =
      (true, Function.update emptyStock (1, 1) (some 5)) :=
  release_missing_record_recreates emptyStock 1 1 5 rfl (by decide)

/-! ### C7 — distinguishability of business-rule errors

The claim says an insufficient-stock failure is reported to the caller
differently from a missing-record failure.  The repository returns
`None` for both causes and `ProductService.update_stock` maps every
repository failure to the single result
`(False, "admin_stock_update_failed_insufficient")`, so the two causes
are indistinguishable to the caller. -/

/-- C7 counterexample: an adjustment of `-5` against an existing record
with quantity 3 (insufficient stock) and against an absent record
(record not found) produce the identical caller-visible result. -/
theorem error_reporting_counterexample :
    Function.update emptyStock (1, 1) (some 3) (1, 1) = some 3 ∧
    emptyStock (1, 1) = none ∧
    (update_stock (Function.update emptyStock (1, 1) (some 3)) 1 1 (-5)).1 =
      (false, "admin_stock_update_failed_insufficient") ∧
    (update_stock emptyStock 1 1 (-5)).1 =
      (false, "admin_stock_update_failed_insufficient") := by
  exact ⟨rfl, rfl, rfl, rfl⟩

/-- C7 amended: stock-mutation failures are never silently swallowed —
every repository failure is surfaced to the caller as a failure result
and every success as a success result — but the failure causes are not
distinguishable: insufficient stock and missing record are both reported
as the single untyped result
`(False, "admin_stock_update_failed_insufficient")`, with the state
rolled back. -/
theorem error_reporting_untyped :
    (∀ (st : StockState) (p l : ℕ) (d : ℤ),
      update_stock_quantity st p l d = none →
      update_stock st p l d =
        ((false, "admin_stock_update_failed_insufficient"), st)) ∧
    (∀ (st st2 : StockState) (p l : ℕ) (d n : ℤ),
      update_stock_quantity st p l d = some (st2, n) →
      update_stock st p l d = ((true, "admin_stock_updated_success"), st2)) := by
  constructor
  · intro st p l d h
    rw [update_stock, h]
  · intro st st2 p l d n h
    rw [update_stock, h]

/-- C7 witness: the failing adjustment `-5` against quantity 3 at
`(1, 1)` is reported as the untyped failure result with the state kept;
the succeeding adjustment `-2` is reported as success. -/
theorem error_reporting_untyped_witness :
    update_stock (Function.update emptyStock (1, 1) (some 3)) 1 1 (-5) =
      ((false, "admin_stock_update_failed_insufficient"),
        Function.update emptyStock (1, 1) (some 3)) ∧
    update_stock (Function.update emptyStock (1, 1) (some 3)) 1 1 (-2) =
      ((true, "admin_stock_updated_success"),
        Function.update (Function.update emptyStock (1, 1) (some 3)) (1, 1)
          (some (3 + -2))) :=
  ⟨error_reporting_untyped.1 (Function.update emptyStock (1, 1) (some 3))
      1 1 (-5) rfl,
   error_reporting_untyped.2 (Function.update emptyStock (1, 1) (some 3))
      (Function.update (Function.update emptyStock (1, 1) (some 3)) (1, 1)
        (some (3 + -2))) 1 1 (-2) (3 + -2) rfl⟩

/-! ### C2 — atomic multi-item reservation -/

lemma update_stock_quantity_other_key {st st2 : StockState} {p l : ℕ} {d n : ℤ}
    (h : update_stock_quantity st p l d = some (st2, n)) {k : StockKey}
    (hk : k ≠ (p, l)) : st2 k = st k := by
  cases hst : st (p, l) with
  | some q =>
      rw [update_stock_quantity_existing hst] at h
      split at h
      · exact absurd h (by simp)
      · simp only [Option.some.injEq, Prod.mk.injEq] at h
        rw [← h.1, Function.update_noteq hk]
  | none =>
      rw [update_stock_quantity_missing hst] at h
      split at h
      · exact absurd h (by simp)
      · simp only [Option.some.injEq, Prod.mk.injEq] at h
        rw [← h.1, Function.update_noteq hk]

/-- An adjustment requesting strictly more than the available quantity
fails, whether the row exists (insufficient) or is absent (requested
positive, delta negative). -/
lemma update_stock_quantity_over_available {st : StockState} {p l : ℕ} {q : ℤ}
    (_hinv : StockInv st) (hover : availableQty st (p, l) < q) :
    update_stock_quantity st p l (-q) = none := by
  cases hst : st (p, l) with
  | some cur =>
      have hcur : availableQty st (p, l) = cur := by
        simp [availableQty, hst]
      rw [update_stock_quantity_existing hst, if_pos (by omega)]
  | none =>
      have hcur : availableQty st (p, l) = 0 := by
        simp [availableQty, hst]
      rw [update_stock_quantity_missing hst, if_pos (by omega)]

lemma reserveAll_none_of_over {st : StockState} {items : List LineItem}
    {bad : LineItem} (hinv : StockInv st) (hmem : bad ∈ items)
    (hdisj : items.Pairwise fun i j => i.key ≠ j.key)
    (hover : availableQty st bad.key < bad.quantity) :
    reserveAll st items = none := by
  induction items generalizing st with
  | nil => exact absurd hmem (by simp)
  | cons it rest ih =>
      rw [reserveAll]
      rcases List.mem_cons.mp hmem with rfl | hrest
      · rw [update_stock_quantity_over_available hinv hover]
      · cases hu : update_stock_quantity st it.product_id it.location_id
            (-it.quantity) with
        | none => rfl
        | some r =>
            obtain ⟨st2, n⟩ := r
            have hkey : bad.key ≠ it.key :=
              fun hk => (List.pairwise_cons.mp hdisj).1 bad hrest hk.symm
            have hsame : st2 bad.key = st bad.key :=
              update_stock_quantity_other_key hu hkey
            have hover2 : availableQty st2 bad.key < bad.quantity := by
              rwa [availableQty, hsame]
            exact ih ((update_stock_quantity_inv hinv hu).1) hrest
              (List.pairwise_cons.mp hdisj).2 hover2

/-- C2: if any line item of an order requests strictly more than its
available stock, `CreateOrder` fails as a whole and the stock of every
item — including the ones reserved before the failing one — is left
exactly as it was (no partial reservation survives). -/
theorem create_order_atomic :
    ∀ (st : StockState) (items : List LineItem) (bad : LineItem),
      StockInv st → bad ∈ items →
      (items.Pairwise fun i j => i.key ≠ j.key) →
      availableQty st bad.key < bad.quantity →
      createOrder st items = (false, st) := by
  intro st items bad hinv hmem hdisj hover
  rw [createOrder, reserveAll_none_of_over hinv hmem hdisj hover]

/-- C2 witness: with stock `A = (1, 1) ↦ 8` and `B = (2, 1) ↦ 10`, the
order `[(A, 3), (B, 100)]` fails as a whole and both stocks stay as
they were, although item A alone could have been reserved. -/
theorem create_order_atomic_witness :
    createOrder
      (Function.update (Function.update emptyStock (1, 1) (some 8)) (2, 1)
        (some 10))
      [LineItem.mk 1 1 3, LineItem.mk 2 1 100] =
    (false, Function.update (Function.update emptyStock (1, 1) (some 8)) (2, 1)
      (some 10)) :=
  create_order_atomic
    (Function.update (Function.update emptyStock (1, 1) (some 8)) (2, 1)
      (some 10))
    [LineItem.mk 1 1 3, LineItem.mk 2 1 100] (LineItem.mk 2 1 100)
    (by
      intro k q h
      rcases eq_or_ne k (2, 1) with rfl | h2
      · rw [Function.update_same] at h
        injection h with h
        omega
      · rw [Function.update_noteq h2] at h
        rcases eq_or_ne k (1, 1) with rfl | h1
        · rw [Function.update_same] at h
          injection h with h
          omega
        · rw [Function.update_noteq h1] at h
          simp [emptyStock] at h)
    (by decide) (by decide) (by decide)

/-! ### C4 — no double release -/

instance {ε α : Type _} [DecidableEq ε] [DecidableEq α] :
    DecidableEq (Except ε α) := fun x y =>
  match x, y with
  | .error a, .error b =>
      if h : a = b then .isTrue (by rw [h])
      else .isFalse (fun hc => h (Except.error.inj hc))
  | .error _, .ok _ => .isFalse (fun hc => Except.noConfusion hc)
  | .ok _, .error _ => .isFalse (fun hc => Except.noConfusion hc)
  | .ok a, .ok b =>
      if h : a = b then .isTrue (by rw [h])
      else .isFalse (fun hc => h (Except.ok.inj hc))

/-- Every row of the transition table triggered by `cancel` leads to the
`cancelled` status. -/
lemma next_cancel_cancelled :
    ∀ (c n : OrderStatus) (r : Bool), Next c .cancel = .ok (n, r) →
      n = .cancelled := by
  decide

/-- A successful `Transition` implies the order was not terminal, the
items are untouched, and the state machine licensed the move to the
returned status. -/
lemma transition_ok_spec {st st1 : StockState} {o o1 : Order}
    {a : OrderAction} (h : Transition st o a = (.ok o1, st1)) :
    isTerminal o.status = false ∧ o1.items = o.items ∧
    ∃ r, Next o.status a = .ok (o1.status, r) := by
  rw [Transition] at h
  split at h
  · simp at h
  · rename_i hterm
    refine ⟨by simpa using hterm, ?_⟩
    split at h
    · simp at h
    · rename_i n rel heq
      split at h
      · split at h
        · simp only [Prod.mk.injEq, Except.ok.injEq] at h
          rw [← h.1]
          exact ⟨rfl, rel, heq⟩
        · simp at h
      · simp only [Prod.mk.injEq, Except.ok.injEq] at h
        rw [← h.1]
        exact ⟨rfl, rel, heq⟩

/-- C4: a `Transition` with action `cancel` on an order already in a
terminal status fails with `OrderAlreadyTerminal` and performs no stock
adjustment; and after any successful cancel, the order is in a terminal
status, so the immediately repeated cancel fails with
`OrderAlreadyTerminal` and leaves the stock exactly as the single
release left it — the reserved quantities are returned exactly once. -/
theorem no_double_release :
    (∀ (st : StockState) (o : Order), isTerminal o.status = true →
      Transition st o .cancel = (.error .orderAlreadyTerminal, st)) ∧
    (∀ (st st1 : StockState) (o o1 : Order),
      Transition st o .cancel = (.ok o1, st1) →
      Transition st1 o1 .cancel = (.error .orderAlreadyTerminal, st1)) := by
  have hterm : ∀ (st : StockState) (o : Order), isTerminal o.status = true →
      Transition st o .cancel = (.error .orderAlreadyTerminal, st) := by
    intro st o h
    rw [Transition, if_pos h]
  refine ⟨hterm, ?_⟩
  intro st st1 o o1 h
  obtain ⟨-, -, r, hn⟩ := transition_ok_spec h
  have hst : o1.status = .cancelled := next_cancel_cancelled o.status o1.status r hn
  exact hterm st1 o1 (by rw [hst]; rfl)

/-- C4 witness: cancelling a pending order with one item of reserved
quantity 5 releases the 5 units once; the repeated cancel on the now
cancelled order fails with `OrderAlreadyTerminal` and leaves the stock
untouched. -/
theorem no_double_release_witness :
    Transition (Function.update emptyStock (1, 1) (some 5))
      (Order.mk .cancelled [OrderItem.mk 1 1 5]) .cancel =
      (.error .orderAlreadyTerminal, Function.update emptyStock (1, 1) (some 5)) ∧
    Transition (Function.update emptyStock (1, 1) (some 5))
      (Order.mk .completed []) .cancel =
      (.error .orderAlreadyTerminal, Function.update emptyStock (1, 1) (some 5)) :=
  ⟨no_double_release.2 emptyStock (Function.update emptyStock (1, 1) (some 5))
      (Order.mk .pending_admin_approval [OrderItem.mk 1 1 5])
      (Order.mk .cancelled [OrderItem.mk 1 1 5]) rfl,
   no_double_release.1 (Function.update emptyStock (1, 1) (some 5))
      (Order.mk .completed []) rfl⟩

end NikitaBot
